import Mathlib

/-!
Shallow embedding of the livestream repository: the segment-timing arithmetic
of stream_url.py, the playlist scheduler of scheduler.py, the encoder sink of
livestream/streamer.py, the capture loop of livestream/capture.py and the
overlay rotation of livestream/overlay.py.  Durations (Python floats holding
seconds) are modelled as rationals; subprocess handles are modelled by their
observable state.
-/

/-- SegmentPlan record of the spec data model: the timing quantities computed
by stream_url.stream_segment lines 43-45 for one broadcast segment. -/
structure SegmentPlan where
  available_time : ℚ
  narration_duration : ℚ
  filler_duration : ℚ
  total_duration : ℚ
  deriving DecidableEq

/-- Timing computation of stream_url.stream_segment (stream_url.py lines
43-45): segment_duration is the probed narration duration, filler_duration is
max(available_time - segment_duration, 0) and total_duration is their sum,
which becomes the -t argument of the encoder invocation. -/
def stream_segment_plan (available_time narration_duration : ℚ) : SegmentPlan :=
  { available_time := available_time
    narration_duration := narration_duration
    filler_duration := max (available_time - narration_duration) 0
    total_duration := narration_duration + max (available_time - narration_duration) 0 }

/-- C1: for every pair (available_time, narration_duration) the plan built by
stream_segment satisfies filler_duration = max(available_time -
narration_duration, 0) and total_duration = narration_duration +
filler_duration exactly; when the narration overruns the slot the filler is
zero and the total equals the narration duration, so the segment runs long
with no truncation. -/
theorem C1_stream_segment_plan_invariant (a d : ℚ) :
    (stream_segment_plan a d).filler_duration = max (a - d) 0
    ∧ (stream_segment_plan a d).total_duration
        = (stream_segment_plan a d).narration_duration
          + (stream_segment_plan a d).filler_duration
    ∧ (a < d →
        (stream_segment_plan a d).filler_duration = 0
        ∧ (stream_segment_plan a d).total_duration = d) := by
  refine ⟨rfl, rfl, fun h => ?_⟩
  have hmax : max (a - d) 0 = 0 := max_eq_right (by linarith)
  constructor
  · simp [stream_segment_plan, hmax]
  · simp [stream_segment_plan, hmax]

/-- Witness for C1 at the overrun scenario of the spec: available_time = 300,
narration_duration = 340 gives filler 0 and total 340. -/
theorem C1_stream_segment_plan_witness :
    (stream_segment_plan 300 340).filler_duration = 0
    ∧ (stream_segment_plan 300 340).total_duration = 340 :=
  (C1_stream_segment_plan_invariant 300 340).2.2 (by norm_num)

/-- The available_time argument that stream_url.run_livestream passes to
stream_segment each cycle (stream_url.py line 180): the literal constant
interval_seconds.  The overhead already elapsed in the cycle (the synchronous
news generation of line 171 runs before the segment starts) is taken as a
parameter to record that the passed value does not depend on it: no
subtraction and no flooring appears in the source. -/
def run_livestream_available_time (interval_seconds overhead_elapsed : ℚ) : ℚ :=
  interval_seconds

/-- The segment plan built in one run_livestream cycle, as a function of the
configured interval, the overhead already elapsed in the cycle, and the probed
narration duration of the ready audio file. -/
def run_livestream_cycle_plan
    (interval_seconds overhead_elapsed narration_duration : ℚ) : SegmentPlan :=
  stream_segment_plan (run_livestream_available_time interval_seconds overhead_elapsed)
    narration_duration

/-- C6 counterexample: with a 1800 s interval and 10 s of overhead already
elapsed in the cycle, the code hands available_time = 1800 to the encoder,
not max(1800 - 10, 0) = 1790 as the claim states. -/
theorem C6_available_time_ignores_overhead_cex :
    ¬ run_livestream_available_time 1800 10 = max ((1800 : ℚ) - 10) 0 := by
  norm_num [run_livestream_available_time]

/-- C6 amended: the available_time handed to the segment encoder is the
configured interval verbatim, independent of the overhead already elapsed in
the cycle; the whole segment plan of a cycle is unchanged by overhead. -/
theorem C6_available_time_is_full_interval (i o o' d : ℚ) :
    run_livestream_available_time i o = i
    ∧ run_livestream_cycle_plan i o d = run_livestream_cycle_plan i o' d
    ∧ (run_livestream_cycle_plan i o d).available_time = i :=
  ⟨rfl, rfl, rfl⟩

/-- One iteration of the while-loop of stream_url.run_livestream (lines
168-183), abstracted to the outcome of the unguarded narration-generation call
of line 171: the loop body awaits the prefetched audio, then calls
generate_news_content with no exception handler (the try around the loop
catches only KeyboardInterrupt), so a generation exception propagates out of
the loop and ends the livestream.  Except.ok means the cycle proceeds to
stream_segment; Except.error means the raise escapes the loop. -/
def run_livestream_cycle (gen : Except String String) : Except String Unit := do
  let _news ← gen
  pure ()

/-- C2 counterexample: in stream_url.run_livestream a cycle whose narration
generation raises does not degrade to a filler-only segment; the exception
propagates and the scheduling loop terminates. -/
theorem C2_run_livestream_generation_failure_terminates :
    run_livestream_cycle (Except.error ("news generation failed"))
      = Except.error ("news generation failed") := rfl

/-- AudioScheduler.generate_and_update (scheduler.py lines 74-85): the whole
narration pipeline of the try block (generate_news_content, generate_tts_audio,
prepare_livestream_audio) is modelled by its combined outcome gen; on success
the produced segment file is appended to the concat playlist, and the blanket
except catches any exception, logs it and returns normally.  Result: the new
playlist and the logged error, if any; the function is total, so a failing
cycle never crashes the scheduler. -/
def AudioScheduler.generate_and_update (playlist : List String)
    (gen : Except String String) : List String × Option String :=
  match gen with
  | Except.ok segment_file => (playlist ++ [segment_file], none)
  | Except.error e => (playlist, some e)

/-- Successive scheduler cycles (the interval job installed by
AudioScheduler.start_scheduler): each cycle runs generate_and_update on the
playlist left by the previous one. -/
def AudioScheduler.run_cycles (playlist : List String) :
    List (Except String String) → List String
  | [] => playlist
  | g :: gs =>
      AudioScheduler.run_cycles (AudioScheduler.generate_and_update playlist g).1 gs

/-- C2 amended: in AudioScheduler a cycle whose narration pipeline raises is
caught and logged, leaves the playlist unchanged — the stream keeps playing
the background-music playlist, a filler-only degradation — and the following
cycles resume normal scheduling exactly as if the failed cycle had not
happened; in stream_url.run_livestream, by contrast, the generation exception
propagates and terminates the loop (see the counterexample). -/
theorem C2_scheduler_generation_failure_degrades (playlist : List String)
    (e : String) (rest : List (Except String String)) :
    AudioScheduler.generate_and_update playlist (Except.error e) = (playlist, some e)
    ∧ AudioScheduler.run_cycles playlist (Except.error e :: rest)
        = AudioScheduler.run_cycles playlist rest :=
  ⟨rfl, rfl⟩

/-- Epilogue of stream_url.stream_segment (lines 102-112): process.wait()
returns the encoder exit code, then capture_task.cancel() is requested, stdin
closed, and the task awaited at line 108 with no exception handling.  When the
capture task is still pending at cancellation — the typical case, since
_capture_frames sits suspended in an await when FFmpeg exits — awaiting the
cancelled task raises CancelledError and control never reaches the os.remove
of lines 110-111.  Only when the task had already finished does execution fall
through to the deletion, which then runs whenever the file exists, without
consulting the exit code (the exit-code parameter is unused to record exactly
that).  Result: the exception propagated out of the epilogue, if any, and
whether the narration file was deleted. -/
def stream_segment_cleanup (encoder_exit_code : Int)
    (capture_task_pending : Bool) (tts_file_on_disk : Bool) :
    Except String Unit × Bool :=
  if capture_task_pending then (Except.error ("CancelledError"), false)
  else (Except.ok (), tts_file_on_disk)

/-- create_video.mix_audio_with_video (create_video.py lines 19-44): runs one
encode and raises RuntimeError when the encoder returns a nonzero exit code. -/
def mix_audio_with_video (ffmpeg_returncode : Int) : Except String Unit :=
  if ffmpeg_returncode ≠ 0 then Except.error ("FFmpeg command failed") else Except.ok ()

/-- create_video.main lines 83-88: try: mix_audio_with_video ... finally:
remove the consumed narration file when present.  The finally block runs on
the success path and on every raising path.  Result: the outcome of the mix
and whether the narration file was deleted. -/
def create_video_cleanup (ffmpeg_returncode : Int) (tts_file_on_disk : Bool) :
    Except String Unit × Bool :=
  (mix_audio_with_video ffmpeg_returncode, tts_file_on_disk)

/-- C8 counterexample: an encode invocation whose encoder even exited cleanly
(exit code 0), with the narration file on disk, but whose cancelled capture
task was still pending: awaiting it raises CancelledError out of
stream_segment before the os.remove, and the file is not deleted — cleanup
does not happen on this error path. -/
theorem C8_capture_cancel_skips_deletion_cex :
    (stream_segment_cleanup 0 true true).2 = false
    ∧ (stream_segment_cleanup 0 true true).1 = Except.error ("CancelledError") :=
  ⟨rfl, rfl⟩

/-- C8 amended: the deletion of the consumed narration file never consults the
encode exit code — stream_segment behaves identically for every exit code, and
deletes the file for every exit code whenever control reaches the post-wait
cleanup (cancelled capture task already finished); create_video.main deletes
it in a finally block on the success path and on every error path, including a
failing encode.  But when the cancelled capture task is still pending,
stream_segment raises before the deletion and the file is left on disk (see
the counterexample). -/
theorem C8_tts_file_deleted_no_exit_code_check (rc : Int) :
    (stream_segment_cleanup rc false true).2 = true
    ∧ (∀ pending file_on_disk : Bool,
        stream_segment_cleanup rc pending file_on_disk
          = stream_segment_cleanup 0 pending file_on_disk)
    ∧ (create_video_cleanup rc true).2 = true
    ∧ (rc ≠ 0 →
        (create_video_cleanup rc true).1 = Except.error ("FFmpeg command failed")
        ∧ (create_video_cleanup rc true).2 = true) := by
  refine ⟨rfl, fun pending file_on_disk => ?_, rfl, fun h => ⟨?_, rfl⟩⟩
  · cases pending <;> rfl
  · simp [create_video_cleanup, mix_audio_with_video, h]

/-- Witness for C8 at a failing encode, exit code 1, with the capture task
already finished: both sources delete the file. -/
theorem C8_tts_file_deleted_no_exit_code_check_witness :
    (stream_segment_cleanup 1 false true).2 = true
    ∧ (create_video_cleanup 1 true).1 = Except.error ("FFmpeg command failed")
    ∧ (create_video_cleanup 1 true).2 = true :=
  ⟨(C8_tts_file_deleted_no_exit_code_check 1).1,
   ((C8_tts_file_deleted_no_exit_code_check 1).2.2.2 (by decide)).1,
   ((C8_tts_file_deleted_no_exit_code_check 1).2.2.2 (by decide)).2⟩

/-- Character-list test: does the first list start the second one. -/
def starts_with_seq : List Char → List Char → Bool
  | [], _ => true
  | _ :: _, [] => false
  | a :: as, b :: bs => a == b && starts_with_seq as bs

/-- Character-list test: does the first list occur contiguously inside the
second one. -/
def contains_seq (needle : List Char) : List Char → Bool
  | [] => needle.isEmpty
  | c :: rest => starts_with_seq needle (c :: rest) || contains_seq needle rest

/-- Does the first string occur inside the second one. -/
def occurs_in (needle haystack : String) : Bool :=
  contains_seq needle.data haystack.data

/-- The stream-key-bearing RTMP URL assembled by AudioScheduler.__init__
(scheduler.py line 44). -/
def AudioScheduler.stream_url (stream_key : String) : String :=
  "rtmp://a.rtmp.youtube.com/live2/" ++ stream_key

/-- The encoder command built by AudioScheduler.start_stream (scheduler.py
lines 116-143), ending in the raw stream-key-bearing URL. -/
def AudioScheduler.start_stream_cmd (stream_key playlist_path image_path : String) :
    List String :=
  ["ffmpeg", "-hide_banner", "-loglevel", "error",
   "-re",
   "-f", "concat",
   "-safe", "0",
   "-i", playlist_path,
   "-loop", "1",
   "-i", image_path,
   "-map", "1:v",
   "-map", "0:a",
   "-c:v", "libx264",
   "-preset", "veryfast",
   "-tune", "zerolatency",
   "-pix_fmt", "yuv420p",
   "-r", "30",
   "-g", "60",
   "-b:v", "3000k",
   "-maxrate", "3000k",
   "-minrate", "3000k",
   "-bufsize", "6000k",
   "-c:a", "aac",
   "-b:a", "128k",
   "-ar", "44100",
   "-shortest",
   "-f", "flv",
   AudioScheduler.stream_url stream_key]

/-- The line logged by AudioScheduler.start_stream (scheduler.py line 144):
the command is joined with spaces and logged as is, with no masking of the
stream key. -/
def AudioScheduler.start_stream_log (stream_key playlist_path image_path : String) :
    String :=
  "Starting FFmpeg stream: "
    ++ " ".intercalate (AudioScheduler.start_stream_cmd stream_key playlist_path image_path)

/-- The stream-key-bearing RTMP URL assembled by YouTubeStreamer.__init__
(livestream/streamer.py line 25). -/
def YouTubeStreamer.rtmp_url (stream_key : String) : String :=
  "rtmp://a.rtmp.youtube.com/live2/" ++ stream_key

/-- The encoder command built by YouTubeStreamer._create_ffmpeg_command
(livestream/streamer.py lines 28-77).  The audio branch taken when
self.audio_file is set and exists is modelled by the Option argument. -/
def YouTubeStreamer.create_ffmpeg_command (stream_key video_bitrate buffer_size : String)
    (fps : ℕ) (audio_file : Option String) : List String :=
  ["ffmpeg", "-y",
   "-loglevel", "error",
   "-thread_queue_size", "1024",
   "-f", "image2pipe",
   "-vcodec", "png",
   "-r", toString fps,
   "-i", "-"]
  ++ (match audio_file with
      | some f =>
          ["-thread_queue_size", "1024",
           "-stream_loop", "-1",
           "-i", f]
      | none =>
          ["-f", "lavfi",
           "-i", "anullsrc=channel_layout=stereo:sample_rate=44100"])
  ++ ["-c:v", "libx264",
      "-preset", "veryfast",
      "-maxrate", video_bitrate,
      "-bufsize", buffer_size,
      "-pix_fmt", "yuv420p",
      "-g", "50",
      "-c:a", "aac",
      "-b:a", "128k",
      "-ar", "44100",
      "-shortest",
      "-f", "flv",
      YouTubeStreamer.rtmp_url stream_key]

/-- Argument quoting of the print in YouTubeStreamer.start (streamer.py line
83): arguments containing a space are wrapped in double quotes. -/
def quote_if_space (arg : String) : String :=
  if arg.data.contains ' ' then "\"" ++ arg ++ "\"" else arg

/-- The command line printed by YouTubeStreamer.start (streamer.py lines
82-83): the raw command, space-joined, with no masking of the stream key. -/
def YouTubeStreamer.start_log (stream_key video_bitrate buffer_size : String)
    (fps : ℕ) (audio_file : Option String) : String :=
  " ".intercalate
    ((YouTubeStreamer.create_ffmpeg_command stream_key video_bitrate buffer_size
        fps audio_file).map quote_if_space)

set_option maxRecDepth 100000 in
/-- C3: the stream-key secret does appear in logged process-invocation
strings.  AudioScheduler.start_stream logs the raw key and so does
YouTubeStreamer.start, and two scheduler runs differing only in the key log
different lines, refuting the masking hyperproperty the claim states. -/
theorem C3_stream_key_appears_in_log :
    occurs_in ("SECRETKEY123")
        (AudioScheduler.start_stream_log ("SECRETKEY123") ("playlist.txt")
          ("screenshot.png")) = true
    ∧ occurs_in ("SECRETKEY123")
        (YouTubeStreamer.start_log ("SECRETKEY123") ("3000k") ("6000k") 30 none) = true
    ∧ AudioScheduler.start_stream_log ("KEYA") ("playlist.txt") ("screenshot.png")
        ≠ AudioScheduler.start_stream_log ("KEYB") ("playlist.txt") ("screenshot.png") := by
  refine ⟨by decide, by decide, by decide⟩

/-- Observable state of the external encoder process. -/
inductive ProcState
  | notStarted
  | running
  | terminated
  | killed
  deriving DecidableEq

/-- YouTubeStreamer.cleanup (livestream/streamer.py lines 126-139): when a
process exists, close stdin, drain stderr, terminate() and wait(timeout=5),
all inside one try whose blanket except only prints.  The Bool parameter is
the behaviour of the process: does it exit within the 5 s grace period once
SIGTERM is delivered.  If it does not, wait raises TimeoutExpired, the except
swallows it, and cleanup returns with the process still running — there is no
kill() on this path. -/
def YouTubeStreamer.cleanup (process : Option Bool) : ProcState :=
  match process with
  | none => ProcState.notStarted
  | some exits_within_grace =>
      if exits_within_grace then ProcState.terminated else ProcState.running

/-- AudioScheduler.stop (scheduler.py lines 153-161): when a live process
exists, terminate() and wait(timeout=5); on TimeoutExpired, kill().  Same
process-behaviour parameter as YouTubeStreamer.cleanup. -/
def AudioScheduler.stop (process : Option Bool) : ProcState :=
  match process with
  | none => ProcState.notStarted
  | some exits_within_grace =>
      if exits_within_grace then ProcState.terminated else ProcState.killed

/-- C5: YouTubeStreamer.cleanup leaves an encoder process running when the
process does not exit within the 5 s grace period after terminate(), because
the TimeoutExpired is swallowed and no force-kill follows; AudioScheduler.stop
on the same process behaviour force-kills, and never leaves a running
process. -/
theorem C5_cleanup_leaves_process_running :
    YouTubeStreamer.cleanup (some false) = ProcState.running
    ∧ AudioScheduler.stop (some false) = ProcState.killed
    ∧ ∀ b : Bool, ¬ AudioScheduler.stop (some b) = ProcState.running := by
  refine ⟨rfl, rfl, by decide⟩

/-- Events observed by one iteration of the capture loop of
WebCapture.start_capture (livestream/capture.py lines 148-181): either the
screenshot succeeds or it raises a PlaywrightTimeoutError. -/
inductive CaptureEvent
  | timeout
  | success
  deriving DecidableEq

/-- The loop state of WebCapture.start_capture that the claim is about: the
consecutive_errors counter of line 146, plus a count of the reload attempts
(calls to load_page at line 178) performed so far. -/
structure CaptureState where
  consecutive_errors : ℕ
  reload_attempts : ℕ
  deriving DecidableEq

/-- One iteration of the capture loop (capture.py lines 148-181): a successful
screenshot resets consecutive_errors to 0 (line 152); a timeout increments it,
and when it reaches 3 the page is reloaded once and the counter reset to 0
(lines 173-181).  A reload that itself fails raises and ends the loop, so a
continuing trace has a successful reload. -/
def start_capture_step (s : CaptureState) : CaptureEvent → CaptureState
  | CaptureEvent.success => { s with consecutive_errors := 0 }
  | CaptureEvent.timeout =>
      if 3 ≤ s.consecutive_errors + 1 then
        { consecutive_errors := 0, reload_attempts := s.reload_attempts + 1 }
      else
        { s with consecutive_errors := s.consecutive_errors + 1 }

/-- The capture loop run over a finite trace of per-frame events. -/
def start_capture_run (s : CaptureState) : List CaptureEvent → CaptureState
  | [] => s
  | e :: es => start_capture_run (start_capture_step s e) es

/-- A run of k consecutive timeouts from a counter below 3 performs one reload
attempt per completed group of three and leaves the counter at the remainder. -/
theorem start_capture_run_timeouts (k : ℕ) :
    ∀ s : CaptureState, s.consecutive_errors < 3 →
      start_capture_run s (List.replicate k CaptureEvent.timeout)
        = { consecutive_errors := (s.consecutive_errors + k) % 3
            reload_attempts := s.reload_attempts + (s.consecutive_errors + k) / 3 } := by
  induction k with
  | zero =>
      intro s hs
      obtain ⟨r, R⟩ := s
      simp only [List.replicate, start_capture_run, CaptureState.mk.injEq]
      simp only [CaptureState.mk.injEq] at hs ⊢
      omega
  | succ k ih =>
      intro s hs
      obtain ⟨r, R⟩ := s
      have hr3 : r < 3 := hs
      rw [List.replicate_succ]
      show start_capture_run (start_capture_step ⟨r, R⟩ CaptureEvent.timeout)
          (List.replicate k CaptureEvent.timeout) = _
      by_cases h3 : 3 ≤ r + 1
      · have hr : r = 2 := by omega
        subst hr
        rw [show start_capture_step ⟨2, R⟩ CaptureEvent.timeout
              = ⟨0, R + 1⟩ from by simp [start_capture_step]]
        rw [ih ⟨0, R + 1⟩ (show (0 : ℕ) < 3 by omega)]
        simp only [CaptureState.mk.injEq]
        omega
      · rw [show start_capture_step ⟨r, R⟩ CaptureEvent.timeout
              = ⟨r + 1, R⟩ from by simp [start_capture_step, h3]]
        rw [ih ⟨r + 1, R⟩ (show r + 1 < 3 by omega)]
        simp only [CaptureState.mk.injEq]
        omega

/-- C4: from a reset counter, exactly three consecutive capture timeouts
trigger exactly one reload attempt; fewer than three trigger none and only
advance the counter; and a successful capture resets the counter to zero
without touching the reload count. -/
theorem C4_capture_timeout_reload_policy (s : CaptureState)
    (hs : s.consecutive_errors = 0) :
    start_capture_run s (List.replicate 3 CaptureEvent.timeout)
      = { consecutive_errors := 0, reload_attempts := s.reload_attempts + 1 }
    ∧ (∀ k, k < 3 →
        start_capture_run s (List.replicate k CaptureEvent.timeout)
          = { consecutive_errors := k, reload_attempts := s.reload_attempts })
    ∧ (∀ t : CaptureState,
        (start_capture_step t CaptureEvent.success).consecutive_errors = 0
        ∧ (start_capture_step t CaptureEvent.success).reload_attempts
            = t.reload_attempts) := by
  refine ⟨?_, ?_, ?_⟩
  · rw [start_capture_run_timeouts 3 s (by omega)]
    simp only [CaptureState.mk.injEq, hs]
  · intro k hk
    rw [start_capture_run_timeouts k s (by omega)]
    simp only [CaptureState.mk.injEq, hs]
    omega
  · intro t
    exact ⟨rfl, rfl⟩

/-- Witness for C4 at the fresh loop state: three timeouts give one reload,
two timeouts give none and leave the counter at 2. -/
theorem C4_capture_timeout_reload_policy_witness :
    start_capture_run ⟨0, 0⟩ (List.replicate 3 CaptureEvent.timeout)
      = { consecutive_errors := 0, reload_attempts := 0 + 1 }
    ∧ start_capture_run ⟨0, 0⟩ (List.replicate 2 CaptureEvent.timeout)
      = { consecutive_errors := 2, reload_attempts := 0 } :=
  ⟨(C4_capture_timeout_reload_policy ⟨0, 0⟩ rfl).1,
   (C4_capture_timeout_reload_policy ⟨0, 0⟩ rfl).2.1 2 (by decide)⟩

/-- Observable state of the encoder process owned by YouTubeStreamer: the
frames written to its stdin in order, and whether poll() still returns None. -/
structure EncoderProcess where
  frames_written : List ℕ
  alive : Bool
  deriving DecidableEq

/-- YouTubeStreamer.start (livestream/streamer.py lines 79-101): spawns the
encoder process with an empty input pipe; the stderr reader thread has no
bearing on the observable state modelled here. -/
def YouTubeStreamer.start : EncoderProcess :=
  { frames_written := [], alive := true }

/-- YouTubeStreamer.write_frame (livestream/streamer.py lines 103-124): when
self.process is None, self.start() runs first; then the frame bytes are
written to stdin and flushed, raising on a closed pipe, and afterwards poll()
is checked, raising when the process exited.  Result: the process state and
the outcome of the call. -/
def YouTubeStreamer.write_frame (process : Option EncoderProcess) (frame_data : ℕ) :
    EncoderProcess × Except String Unit :=
  let p := match process with
    | none => YouTubeStreamer.start
    | some q => q
  if p.alive then
    ({ p with frames_written := p.frames_written ++ [frame_data] }, Except.ok ())
  else
    (p, Except.error ("FFmpeg process terminated unexpectedly"))

/-- C9: calling write_frame with no process started does not raise; it behaves
exactly as start() followed by write_frame on the running process, and the
frame lands in the pipe. -/
theorem C9_write_frame_autostarts (frame_data : ℕ) :
    YouTubeStreamer.write_frame none frame_data
      = YouTubeStreamer.write_frame (some YouTubeStreamer.start) frame_data
    ∧ (YouTubeStreamer.write_frame none frame_data).2 = Except.ok ()
    ∧ (YouTubeStreamer.write_frame none frame_data).1.frames_written = [frame_data] :=
  ⟨rfl, rfl, rfl⟩

/-- The default rotating messages of StreamOverlay.__init__
(livestream/overlay.py lines 28-34). -/
def default_messages : List String :=
  ["Welcome to the Stream!",
   "Don\x27t forget to follow!",
   "Thanks for watching!",
   "Hope you\x27re enjoying the stream!",
   "Feel free to ask questions in chat!"]

/-- Rotation state of StreamOverlay (livestream/overlay.py lines 25-34): the
message list, the current index and the timestamp of the last rotation.  The
rendering fields (banner geometry, font, colors) play no part in text
selection and are omitted. -/
structure StreamOverlay where
  messages : List String
  current_index : ℕ
  last_update : ℚ
  deriving DecidableEq

/-- StreamOverlay.__init__: messages falls back to the default list when the
argument is None or empty (the Python truthiness of `messages or [...]`);
current_index starts at 0 and last_update at 0. -/
def StreamOverlay.init (messages : Option (List String)) : StreamOverlay :=
  { messages := match messages with
      | some l => if l.isEmpty then default_messages else l
      | none => default_messages
    current_index := 0
    last_update := 0 }

/-- The rotation branch of StreamOverlay.get_current_text (overlay.py lines
69-75): when at least 180 seconds have passed since the last rotation, advance
the index by one modulo the number of messages and reset the timer; return the
message at the current index together with the updated state. -/
def StreamOverlay.rotate_and_get (o : StreamOverlay) (now : ℚ) : String × StreamOverlay :=
  if 180 ≤ now - o.last_update then
    let o' : StreamOverlay :=
      { o with current_index := (o.current_index + 1) % o.messages.length
               last_update := now }
    (o'.messages.getD o'.current_index (""), o')
  else
    (o.messages.getD o.current_index (""), o)

/-- StreamOverlay.get_current_text (overlay.py lines 56-75): the guard is the
Python truthiness test `if text:`, so only an override that is present and
non-empty is returned verbatim; a None or empty override falls through to the
rotation logic.  Result: the banner text and the possibly mutated state. -/
def StreamOverlay.get_current_text (o : StreamOverlay) (now : ℚ) (text : Option String) :
    String × StreamOverlay :=
  match text with
  | some t => if t = "" then StreamOverlay.rotate_and_get o now else (t, o)
  | none => StreamOverlay.rotate_and_get o now

/-- C7 counterexample: an empty-string override is a supplied (non-absent)
override, yet on the freshly initialised overlay at time 200 it is not
returned verbatim — the rotation message comes back and the rotation state is
mutated. -/
theorem C7_empty_override_not_verbatim_cex :
    (StreamOverlay.get_current_text (StreamOverlay.init none) 200 (some (""))).1 ≠ ""
    ∧ (StreamOverlay.get_current_text (StreamOverlay.init none) 200 (some (""))).2
        ≠ StreamOverlay.init none := by
  have h : StreamOverlay.get_current_text (StreamOverlay.init none) 200 (some (""))
      = ("Don\x27t forget to follow!",
         { messages := default_messages, current_index := 1, last_update := 200 }) := by
    show StreamOverlay.rotate_and_get (StreamOverlay.init none) 200 = _
    rw [StreamOverlay.rotate_and_get, if_pos (by norm_num [StreamOverlay.init])]
    norm_num [StreamOverlay.init, default_messages]
  rw [h]
  refine ⟨by decide, ?_⟩
  simp [StreamOverlay.init, StreamOverlay.mk.injEq]

/-- C7 amended: a non-empty override text is returned verbatim with no
rotation-state mutation; otherwise (override absent — the empty-string case is
settled by the counterexample and claim C10), when the elapsed time since the
last rotation is at least 180 seconds the index advances by one modulo the
number of messages and the timer resets, else the state is unchanged; in both
cases the message at the current index is returned. -/
theorem C7_get_current_text_spec (o : StreamOverlay) (now : ℚ) (t : String)
    (ht : t ≠ "") :
    StreamOverlay.get_current_text o now (some t) = (t, o)
    ∧ (180 ≤ now - o.last_update →
        StreamOverlay.get_current_text o now none
          = (o.messages.getD ((o.current_index + 1) % o.messages.length) (""),
             { o with current_index := (o.current_index + 1) % o.messages.length
                      last_update := now }))
    ∧ (now - o.last_update < 180 →
        StreamOverlay.get_current_text o now none
          = (o.messages.getD o.current_index (""), o)) := by
  refine ⟨?_, ?_, ?_⟩
  · simp [StreamOverlay.get_current_text, ht]
  · intro h
    simp [StreamOverlay.get_current_text, StreamOverlay.rotate_and_get, h]
  · intro h
    simp [StreamOverlay.get_current_text, StreamOverlay.rotate_and_get, not_le.mpr h]

/-- Witness for C7 on the freshly initialised overlay at time 200 with the
non-empty override BREAKING: the override is verbatim and, without an
override, the rotation fires. -/
theorem C7_get_current_text_spec_witness :
    StreamOverlay.get_current_text (StreamOverlay.init none) 200 (some ("BREAKING"))
      = ("BREAKING", StreamOverlay.init none)
    ∧ StreamOverlay.get_current_text (StreamOverlay.init none) 200 none
      = ("Don\x27t forget to follow!",
         { messages := default_messages, current_index := 1, last_update := 200 }) :=
  ⟨(C7_get_current_text_spec (StreamOverlay.init none) 200 ("BREAKING") (by decide)).1,
   (C7_get_current_text_spec (StreamOverlay.init none) 200 ("BREAKING") (by decide)).2.1
     (by norm_num [StreamOverlay.init])⟩

/-- C10: an empty-string override is treated exactly as no override at the
public interface of the overlay: get_current_text on an empty override agrees
with get_current_text on an absent override in both the returned message and
the resulting rotation state. -/
theorem C10_empty_override_falls_through (o : StreamOverlay) (now : ℚ) :
    StreamOverlay.get_current_text o now (some (""))
      = StreamOverlay.get_current_text o now none := rfl
